import Mathlib

/-!
Verification of the electron-pomodoro core against its specification.

The definitions below are a shallow embedding of the TypeScript sources:
TimerService (src/services/TimerService.ts), SettingsService
(src/services/SettingsService.ts), StatsService (src/services/StatsService.ts)
and FileManager (src/utils/fileManager.ts), together with the constants and
type declarations they use.  Stateful classes become explicit state records
with operations returning the new state, the events emitted (callbacks and
EventEmitter emissions collapse to one event list) and an optional error
(a thrown exception).  Asynchronous file writes are modelled by a Boolean
parameter saying whether the write succeeds, and the persisted file is part
of the state.
-/

namespace Pomodoro

/-- Result of one public operation of a service: the state after the call,
the events emitted during it (in order), and the error message if the
operation threw.  When the operation throws, `state` is the state the object
was left in at the throw point, which is how a TypeScript exception leaves
the mutated fields. -/
structure OpResult (σ : Type) (ε : Type) where
  state : σ
  events : List ε
  error : Option String
deriving DecidableEq

/-! ## Constants (src/utils/constants.ts) -/

/-- constants.ts: APP_VERSION -/
def APP_VERSION : String := "1.0.0"

namespace THRESHOLDS

/-- constants.ts THRESHOLDS.CRITICAL_TIME_SECONDS -/
def CRITICAL_TIME_SECONDS : Int := 60

/-- constants.ts THRESHOLDS.MAX_DURATION_MINUTES -/
def MAX_DURATION_MINUTES : Int := 1440

/-- constants.ts THRESHOLDS.MIN_DURATION_MINUTES -/
def MIN_DURATION_MINUTES : Int := 1

end THRESHOLDS

/-- constants.ts VALIDATION.SETTINGS_VERSION_SUPPORTED -/
def SETTINGS_VERSION_SUPPORTED : List String := ["1.0.0"]

/-! ## Timer data model (src/types/timer.ts) -/

/-- TimerType: the three kinds of countdown. -/
inductive TimerType
  | work
  | shortBreak
  | longBreak
deriving DecidableEq

/-- TimerState: idle, running, paused, completed. -/
inductive TimerState
  | idle
  | running
  | paused
  | completed
deriving DecidableEq

/-- The Timer object owned by TimerService.  Durations are minutes,
remaining time is seconds (a JavaScript number, modelled as Int because the
code decrements it and compares with zero).  Timestamps are milliseconds
since the epoch, as produced by Date. -/
structure Timer where
  type : TimerType
  duration : Int
  remainingTime : Int
  state : TimerState
  startedAt : Option Nat
  pausedAt : Option Nat
  completedAt : Option Nat
deriving DecidableEq

/-- TimerConfig passed to startTimer.  The TypeScript type restricts
`type` to the three known values; invalid duration values are still
representable and rejected at run time. -/
structure TimerConfig where
  type : TimerType
  duration : Int
deriving DecidableEq

/-- Events delivered through the callback object and through the
EventEmitter of TimerService (both deliver the same payloads in the same
order, so one list represents both). -/
inductive TimerEvent
  | start (type : TimerType) (duration : Int)
  | stop (type : TimerType) (remaining : Int)
  | pause (type : TimerType) (remaining : Int)
  | resume (type : TimerType) (remaining : Int)
  | tick (remaining : Int)
  | complete (type : TimerType) (actualDuration : Int)
deriving DecidableEq

/-- The mutable state of a TimerService instance: the single Timer (or
null), and whether a repeating interval is currently scheduled
(intervalId not null). -/
structure TimerServiceState where
  timer : Option Timer
  intervalActive : Bool
deriving DecidableEq

/-- TimerService.validateTimerConfig.  The null and type-membership checks
are discharged by the Lean types; the remaining run-time checks are the
positivity check and the [MIN, MAX] minutes range check. -/
def validateTimerConfig (config : TimerConfig) : Option String :=
  if config.duration ≤ 0 then
    some "Timer duration must be a positive number"
  else if config.duration < THRESHOLDS.MIN_DURATION_MINUTES ∨
      THRESHOLDS.MAX_DURATION_MINUTES < config.duration then
    some "Timer duration out of range"
  else
    none

/-- TimerService.stopTimer.  Without a timer, or with an idle one, it only
logs a warning and returns.  Otherwise it clears the interval, nulls the
timer and emits stop with the remaining seconds. -/
def stopTimer (s : TimerServiceState) : OpResult TimerServiceState TimerEvent :=
  match s.timer with
  | none => ⟨s, [], none⟩
  | some t =>
    if t.state = TimerState.idle then
      ⟨s, [], none⟩
    else
      ⟨⟨none, false⟩, [TimerEvent.stop t.type t.remainingTime], none⟩

/-- TimerService.startTimer.  Validates the config; when a current timer is
in the running state it is stopped first (stopTimer, which emits stop);
then the new Timer is constructed in the running state with remainingTime
equal to duration times 60, the interval is scheduled and start is
emitted.  Note the source only stops the old timer when its state is
exactly running: a paused timer is overwritten without a stop event. -/
def startTimer (s : TimerServiceState) (config : TimerConfig) (now : Nat) :
    OpResult TimerServiceState TimerEvent :=
  match validateTimerConfig config with
  | some msg => ⟨s, [], some msg⟩
  | none =>
    let stopRes :=
      match s.timer with
      | some t =>
        if t.state = TimerState.running then stopTimer s else ⟨s, [], none⟩
      | none => ⟨s, [], none⟩
    let newTimer : Timer :=
      { type := config.type
        duration := config.duration
        remainingTime := config.duration * 60
        state := TimerState.running
        startedAt := some now
        pausedAt := none
        completedAt := none }
    ⟨⟨some newTimer, true⟩,
      stopRes.events ++ [TimerEvent.start config.type config.duration], none⟩

/-- TimerService.pauseTimer.  A no-op (warning only) unless a timer exists
and is running; otherwise clears the interval, marks the timer paused with
a pause timestamp and emits pause. -/
def pauseTimer (s : TimerServiceState) (now : Nat) :
    OpResult TimerServiceState TimerEvent :=
  match s.timer with
  | none => ⟨s, [], none⟩
  | some t =>
    if t.state ≠ TimerState.running then
      ⟨s, [], none⟩
    else
      ⟨⟨some { t with state := TimerState.paused, pausedAt := some now }, false⟩,
        [TimerEvent.pause t.type t.remainingTime], none⟩

/-- TimerService.resumeTimer.  A no-op (warning only) unless a timer exists
and is paused; otherwise marks it running, clears pausedAt, reschedules the
interval and emits resume with the frozen remaining time. -/
def resumeTimer (s : TimerServiceState) :
    OpResult TimerServiceState TimerEvent :=
  match s.timer with
  | none => ⟨s, [], none⟩
  | some t =>
    if t.state ≠ TimerState.paused then
      ⟨s, [], none⟩
    else
      ⟨⟨some { t with state := TimerState.running, pausedAt := none }, true⟩,
        [TimerEvent.resume t.type t.remainingTime], none⟩

/-- TimerService.getState: the state of the current timer, idle when there
is none. -/
def getState (s : TimerServiceState) : TimerState :=
  match s.timer with
  | some t => t.state
  | none => TimerState.idle

/-- TimerService.getRemainingTime: remaining seconds, 0 when no timer. -/
def getRemainingTime (s : TimerServiceState) : Int :=
  match s.timer with
  | some t => t.remainingTime
  | none => 0

/-- TimerService.onTimerComplete, called from the interval body when the
decremented remaining time is at or below zero.  Computes the actual
elapsed duration in whole minutes from the start timestamp (falling back
to the configured duration when absent), clears the interval, marks the
timer completed with remaining time zero, emits complete, then nulls the
timer.  Timestamps are monotone in the source, so the millisecond
difference is a natural number. -/
def onTimerComplete (s : TimerServiceState) (now : Nat) :
    TimerServiceState × List TimerEvent :=
  match s.timer with
  | none => (s, [])
  | some t =>
    let actualDuration : Int :=
      match t.startedAt with
      | some st => (((now - st) / 1000 / 60 : Nat) : Int)
      | none => t.duration
    (⟨none, false⟩, [TimerEvent.complete t.type actualDuration])

/-- One firing of the 1-second interval scheduled by
TimerService.startInterval.  When the interval has been cancelled no
callback runs at all, which the guard on intervalActive models.  The body
re-checks that a running timer exists (clearing the interval otherwise),
decrements the remaining time by exactly one, emits tick, and calls
onTimerComplete when the new remaining time is at or below zero. -/
def tick (s : TimerServiceState) (now : Nat) :
    TimerServiceState × List TimerEvent :=
  if s.intervalActive = false then
    (s, [])
  else
    match s.timer with
    | none => (⟨none, false⟩, [])
    | some t =>
      if t.state ≠ TimerState.running then
        (⟨some t, false⟩, [])
      else
        let t1 := { t with remainingTime := t.remainingTime - 1 }
        if t1.remainingTime ≤ 0 then
          let completed := onTimerComplete ⟨some t1, true⟩ now
          (completed.1, TimerEvent.tick t1.remainingTime :: completed.2)
        else
          (⟨some t1, true⟩, [TimerEvent.tick t1.remainingTime])

/-- A run of successive interval firings, one per wall-clock time in the
list, accumulating the emitted events in order. -/
def tickN (s : TimerServiceState) : List Nat → TimerServiceState × List TimerEvent
  | [] => (s, [])
  | now :: rest =>
    let r := tick s now
    let r2 := tickN r.1 rest
    (r2.1, r.2 ++ r2.2)

/-- The number of complete events in an event list. -/
def countComplete (evs : List TimerEvent) : Nat :=
  evs.countP fun ev =>
    match ev with
    | TimerEvent.complete _ _ => true
    | _ => false

/-! ## Settings data model (src/types/settings.ts) -/

/-- AppSettings: the persisted configuration record. -/
structure AppSettings where
  workDuration : Int
  shortBreakDuration : Int
  longBreakDuration : Int
  soundEnabled : Bool
  version : String
deriving DecidableEq

/-- settings.ts DEFAULT_SETTINGS -/
def DEFAULT_SETTINGS : AppSettings :=
  { workDuration := 25
    shortBreakDuration := 5
    longBreakDuration := 15
    soundEnabled := true
    version := "1.0.0" }

/-- SettingsKey: the mutable keys of AppSettings (version excluded). -/
inductive SettingsKey
  | workDuration
  | shortBreakDuration
  | longBreakDuration
  | soundEnabled
deriving DecidableEq

/-- The value of a setting: the TypeScript union number or boolean. -/
inductive SettingValue
  | vNum (n : Int)
  | vBool (b : Bool)
deriving DecidableEq

/-- A min and max bound, one entry of SETTINGS_VALIDATION. -/
structure DurationRange where
  min : Int
  max : Int
deriving DecidableEq

/-- settings.ts SETTINGS_VALIDATION: the per-key duration bounds.  The
object has entries for the three duration keys only, so the lookup is
none for soundEnabled. -/
def SETTINGS_VALIDATION : SettingsKey → Option DurationRange
  | SettingsKey.workDuration => some ⟨1, 120⟩
  | SettingsKey.shortBreakDuration => some ⟨1, 60⟩
  | SettingsKey.longBreakDuration => some ⟨1, 120⟩
  | SettingsKey.soundEnabled => none

/-- SettingsService.validateDurationRange: checks the value against the
SETTINGS_VALIDATION entry for the field, falling back to the global
VALIDATION.DURATION bounds (MIN_DURATION_MINUTES to
MAX_DURATION_MINUTES) when the field has no entry. -/
def validateDurationRange (value : Int) (field : SettingsKey) : Bool :=
  match SETTINGS_VALIDATION field with
  | none =>
    decide (THRESHOLDS.MIN_DURATION_MINUTES ≤ value ∧
      value ≤ THRESHOLDS.MAX_DURATION_MINUTES)
  | some validation =>
    decide (validation.min ≤ value ∧ value ≤ validation.max)

/-- SettingsService.validateSettingValue: duration keys must pass
validateDurationRange on a numeric value (the TypeScript signature already
forces a number there, so a Boolean payload cannot occur and is mapped to
false); soundEnabled must be a boolean. -/
def validateSettingValue (key : SettingsKey) (value : SettingValue) : Bool :=
  match key with
  | SettingsKey.workDuration
  | SettingsKey.shortBreakDuration
  | SettingsKey.longBreakDuration =>
    match value with
    | SettingValue.vNum n => validateDurationRange n key
    | SettingValue.vBool _ => false
  | SettingsKey.soundEnabled =>
    match value with
    | SettingValue.vBool _ => true
    | SettingValue.vNum _ => false

/-- Reading this.settings[key]. -/
def AppSettings.getKey (s : AppSettings) : SettingsKey → SettingValue
  | SettingsKey.workDuration => SettingValue.vNum s.workDuration
  | SettingsKey.shortBreakDuration => SettingValue.vNum s.shortBreakDuration
  | SettingsKey.longBreakDuration => SettingValue.vNum s.longBreakDuration
  | SettingsKey.soundEnabled => SettingValue.vBool s.soundEnabled

/-- Writing this.settings[key] = value.  The TypeScript types make the
payload match the key, so a mismatched payload (unreachable) leaves the
record unchanged. -/
def AppSettings.setKey (s : AppSettings) (key : SettingsKey) (value : SettingValue) :
    AppSettings :=
  match key, value with
  | SettingsKey.workDuration, SettingValue.vNum n => { s with workDuration := n }
  | SettingsKey.shortBreakDuration, SettingValue.vNum n =>
    { s with shortBreakDuration := n }
  | SettingsKey.longBreakDuration, SettingValue.vNum n =>
    { s with longBreakDuration := n }
  | SettingsKey.soundEnabled, SettingValue.vBool b => { s with soundEnabled := b }
  | _, _ => s

/-- Events emitted by SettingsService. -/
inductive SettingsEvent
  | settingsChanged (key : SettingsKey) (value : SettingValue)
      (previousValue : SettingValue)
  | settingsLoaded (settings : AppSettings)
  | settingsReset (settings : AppSettings)
deriving DecidableEq

/-- The mutable state of the SettingsService instance plus the persisted
settings file it owns.  The file holds the last record successfully
written by writeJsonFile (none when absent). -/
structure SettingsServiceState where
  settings : AppSettings
  file : Option AppSettings
  isInitialized : Bool
  autoSaveEnabled : Bool
deriving DecidableEq

/-- SettingsService.updateSetting.  Throws before any change when not
initialized or when validateSettingValue rejects the value.  Otherwise
stages the in-memory change; under autosave it then persists, and a
persist failure (saveOk false) rolls the key back to its previous value
and rethrows without emitting settingsChanged.  settingsChanged is emitted
only on the non-throwing paths. -/
def updateSetting (s : SettingsServiceState) (key : SettingsKey)
    (value : SettingValue) (saveOk : Bool) :
    OpResult SettingsServiceState SettingsEvent :=
  if s.isInitialized = false then
    ⟨s, [], some "SettingsService not initialized"⟩
  else
    let previousValue := s.settings.getKey key
    if validateSettingValue key value = false then
      ⟨s, [], some "Invalid value for setting"⟩
    else
      let staged : SettingsServiceState :=
        { s with settings := s.settings.setKey key value }
      if staged.autoSaveEnabled then
        if saveOk then
          ⟨{ staged with file := some staged.settings },
            [SettingsEvent.settingsChanged key value previousValue], none⟩
        else
          ⟨{ staged with settings := staged.settings.setKey key previousValue },
            [], some "Failed to save settings"⟩
      else
        ⟨staged, [SettingsEvent.settingsChanged key value previousValue], none⟩

/-- The loop body of SettingsService.updateSettings: walk the entries in
order; an entry is applied only when its value is defined, passes
validateSettingValue and differs from the current value; applied entries
are recorded as settingsChanged changes.  Entries failing any of those
checks are skipped silently. -/
def applyUpdates (cur : AppSettings) :
    List (SettingsKey × Option SettingValue) → AppSettings × List SettingsEvent
  | [] => (cur, [])
  | (key, v?) :: rest =>
    match v? with
    | some value =>
      if validateSettingValue key value then
        if cur.getKey key ≠ value then
          let r := applyUpdates (cur.setKey key value) rest
          (r.1, SettingsEvent.settingsChanged key value (cur.getKey key) :: r.2)
        else
          applyUpdates cur rest
      else
        applyUpdates cur rest
    | none => applyUpdates cur rest

/-- SettingsService.updateSettings.  Applies the batch via the loop above,
persists once when autosave is on and at least one change was made, and on
a persist failure restores the whole previous settings record before
rethrowing; the settingsChanged events for the changes are emitted only
after a successful (or skipped) save. -/
def updateSettings (s : SettingsServiceState)
    (updates : List (SettingsKey × Option SettingValue)) (saveOk : Bool) :
    OpResult SettingsServiceState SettingsEvent :=
  if s.isInitialized = false then
    ⟨s, [], some "SettingsService not initialized"⟩
  else
    let previousSettings := s.settings
    let applied := applyUpdates s.settings updates
    if s.autoSaveEnabled ∧ applied.2 ≠ [] then
      if saveOk then
        ⟨{ s with settings := applied.1, file := some applied.1 }, applied.2, none⟩
      else
        ⟨{ s with settings := previousSettings }, [], some "Failed to save settings"⟩
    else
      ⟨{ s with settings := applied.1 }, applied.2, none⟩

/-! ## Statistics data model (src/types/stats.ts, src/services/StatsService.ts) -/

/-- StatsData: the persisted statistics record.  Counters and accumulated
minutes are JavaScript numbers, modelled as Int. -/
structure StatsData where
  workSessions : Int
  shortBreakSessions : Int
  longBreakSessions : Int
  totalWorkTime : Int
  totalBreakTime : Int
  lastResetDate : String
  version : String
deriving DecidableEq

/-- stats.ts DEFAULT_STATS.  Its lastResetDate is the ISO string of the
moment the module was loaded, so it is a parameter here. -/
def DEFAULT_STATS (startupDate : String) : StatsData :=
  { workSessions := 0
    shortBreakSessions := 0
    longBreakSessions := 0
    totalWorkTime := 0
    totalBreakTime := 0
    lastResetDate := startupDate
    version := "1.0.0" }

/-- Events of StatsService (delivered through its logging hooks). -/
inductive StatsEvent
  | statsReset (previousStats : StatsData) (resetDate : String)
  | statsUpdated
deriving DecidableEq

/-- The mutable state of the StatsService instance plus the statistics
file it owns.  backups records the contents copied aside by
fileManager.backupFile, most recent first; the backup files themselves are
never deleted by the service. -/
structure StatsServiceState where
  stats : StatsData
  file : Option StatsData
  backups : List StatsData
  isInitialized : Bool
deriving DecidableEq

/-- StatsService.resetStats.  Throws when not initialized.  Otherwise it
snapshots the current record, backs the file up (fileManager.backupFile
copies the file and throws when the source file is missing), replaces the
record with a fully zeroed one carrying the fresh reset date and
APP_VERSION, and saves it immediately; on any failure in that sequence the
catch block restores the snapshot into memory and rethrows.  saveOk says
whether the writeJsonFile call succeeds. -/
def resetStats (s : StatsServiceState) (resetDate : String) (saveOk : Bool) :
    OpResult StatsServiceState StatsEvent :=
  if s.isInitialized = false then
    ⟨s, [], some "StatsService not initialized"⟩
  else
    let previousStats := s.stats
    match s.file with
    | none =>
      ⟨{ s with stats := previousStats }, [], some "Failed to backup file"⟩
    | some current =>
      let backedUp : StatsServiceState := { s with backups := current :: s.backups }
      let zeroed : StatsData :=
        { workSessions := 0
          shortBreakSessions := 0
          longBreakSessions := 0
          totalWorkTime := 0
          totalBreakTime := 0
          lastResetDate := resetDate
          version := APP_VERSION }
      if saveOk then
        ⟨{ backedUp with stats := zeroed, file := some zeroed },
          [StatsEvent.statsReset previousStats resetDate], none⟩
      else
        ⟨{ backedUp with stats := previousStats }, [], some "Failed to save stats"⟩

/-! ## Durable store primitive (src/utils/fileManager.ts)

The two write paths of FileManager are modelled by the sequence of file
system operations they issue, which is what the atomicity question is
about. -/

/-- One file system call issued by FileManager. -/
inductive FsOp
  | ensureDir (dir : String)
  | write (path : String) (content : String)
  | rename (src : String) (dst : String)
  | unlink (path : String)
deriving DecidableEq

/-- path.dirname for the simple slash-separated paths the services use:
everything before the last separator, or dot when there is none. -/
def dirname (p : String) : String :=
  let parts := p.splitOn "/"
  if parts.length ≤ 1 then "." else String.intercalate "/" parts.dropLast

/-- FileManager.writeJsonFile: ensures the parent directory exists, then
writes the serialized JSON directly to the target path with a single
fs.writeFile call.  json stands for the JSON.stringify output. -/
def writeJsonFileOps (filepath : String) (json : String) : List FsOp :=
  [FsOp.ensureDir (dirname filepath), FsOp.write filepath json]

/-- FileManager.writeFileSafe success path: write the content to the
sibling .tmp path, then rename it over the target.  (On error the catch
block unlinks the temporary file and rethrows.)  No caller in the
repository invokes this method. -/
def writeFileSafeOps (filepath : String) (content : String) : List FsOp :=
  let tempPath := filepath ++ ".tmp"
  [FsOp.write tempPath content, FsOp.rename tempPath filepath]

/-- An operation trace replaces the target atomically: some temporary path
distinct from the target is written and then renamed over the target, and
the target itself is never written directly. -/
def AtomicReplace (ops : List FsOp) (target : String) : Prop :=
  (∃ tmp content, tmp ≠ target ∧ FsOp.write tmp content ∈ ops ∧
    FsOp.rename tmp target ∈ ops) ∧
  ∀ content, FsOp.write target content ∉ ops

/-! ## Raw persisted records and load-time validation

readJsonFile parses the file and runs the validator over untyped JSON, so
the validators are modelled over a raw field map.  A field value is a JSON
scalar of the shapes the validators distinguish. -/

/-- A JSON field value as the validators see it. -/
inductive JField
  | jnum (n : Int)
  | jstr (s : String)
  | jbool (b : Bool)
deriving DecidableEq

/-- A parsed JSON object: an association list from field name to value. -/
def RawRecord : Type := List (String × JField)

instance : DecidableEq RawRecord := by
  unfold RawRecord
  infer_instance

/-- Field lookup in a parsed object. -/
def RawRecord.get (r : RawRecord) (k : String) : Option JField :=
  (r.find? fun p => p.1 = k).map fun p => p.2

/-- The `field in object` test. -/
def RawRecord.has (r : RawRecord) (k : String) : Bool :=
  (r.get k).isSome

/-- The contents of a persisted file as readJsonFile sees them: absent,
unparsable JSON, or a parsed object. -/
inductive FileContents
  | missing
  | unparsable
  | parsed (r : RawRecord)
deriving DecidableEq

/-- SettingsService.validateSettingsData: requires the five fields to be
present, typed number, number, number, boolean, string; the three
durations to pass validateDurationRange against SETTINGS_VALIDATION; and
the version to be in SETTINGS_VERSION_SUPPORTED.  An unsupported version
alone makes the whole record invalid. -/
def validateSettingsData (r : RawRecord) : Bool :=
  ["workDuration", "shortBreakDuration", "longBreakDuration", "soundEnabled",
    "version"].all r.has &&
  match r.get "workDuration", r.get "shortBreakDuration",
      r.get "longBreakDuration", r.get "soundEnabled", r.get "version" with
  | some (JField.jnum w), some (JField.jnum sb), some (JField.jnum lb),
      some (JField.jbool _), some (JField.jstr v) =>
    validateDurationRange w SettingsKey.workDuration &&
    validateDurationRange sb SettingsKey.shortBreakDuration &&
    validateDurationRange lb SettingsKey.longBreakDuration &&
    SETTINGS_VERSION_SUPPORTED.contains v
  | _, _, _, _, _ => false

/-- StatsService.validateStatsData: requires the seven fields to be
present; the five counters and accumulators to be non-negative numbers;
lastResetDate and version to be strings; and lastResetDate to parse as a
date (parsesAsDate abstracts the JavaScript Date parser).  The version
value itself is only required to be a string: membership in a supported
list is not checked. -/
def validateStatsData (parsesAsDate : String → Bool) (r : RawRecord) : Bool :=
  ["workSessions", "shortBreakSessions", "longBreakSessions", "totalWorkTime",
    "totalBreakTime", "lastResetDate", "version"].all r.has &&
  ["workSessions", "shortBreakSessions", "longBreakSessions", "totalWorkTime",
    "totalBreakTime"].all (fun f =>
      match r.get f with
      | some (JField.jnum n) => decide (0 ≤ n)
      | _ => false) &&
  match r.get "lastResetDate", r.get "version" with
  | some (JField.jstr d), some (JField.jstr _) => parsesAsDate d
  | _, _ => false

/-- A numeric field of a validated record, with the default kept when the
field is absent (the object-spread merge keeps the default then). -/
def rawNum (r : RawRecord) (k : String) (dflt : Int) : Int :=
  match r.get k with
  | some (JField.jnum n) => n
  | _ => dflt

/-- A Boolean field of a validated record, default kept when absent. -/
def rawBool (r : RawRecord) (k : String) (dflt : Bool) : Bool :=
  match r.get k with
  | some (JField.jbool b) => b
  | _ => dflt

/-- A string field of a validated record, default kept when absent. -/
def rawStr (r : RawRecord) (k : String) (dflt : String) : String :=
  match r.get k with
  | some (JField.jstr v) => v
  | _ => dflt

/-- SettingsService.mergeWithDefaults: the loaded fields are spread over
DEFAULT_SETTINGS and the version is then overwritten with the default
(current) version. -/
def mergeWithDefaults (r : RawRecord) : AppSettings :=
  { workDuration := rawNum r "workDuration" DEFAULT_SETTINGS.workDuration
    shortBreakDuration :=
      rawNum r "shortBreakDuration" DEFAULT_SETTINGS.shortBreakDuration
    longBreakDuration :=
      rawNum r "longBreakDuration" DEFAULT_SETTINGS.longBreakDuration
    soundEnabled := rawBool r "soundEnabled" DEFAULT_SETTINGS.soundEnabled
    version := DEFAULT_SETTINGS.version }

/-- The typed record a validated raw statistics record denotes. -/
def rawToStats (r : RawRecord) (dflt : StatsData) : StatsData :=
  { workSessions := rawNum r "workSessions" dflt.workSessions
    shortBreakSessions := rawNum r "shortBreakSessions" dflt.shortBreakSessions
    longBreakSessions := rawNum r "longBreakSessions" dflt.longBreakSessions
    totalWorkTime := rawNum r "totalWorkTime" dflt.totalWorkTime
    totalBreakTime := rawNum r "totalBreakTime" dflt.totalBreakTime
    lastResetDate := rawStr r "lastResetDate" dflt.lastResetDate
    version := rawStr r "version" dflt.version }

/-- Outcome of one service initialization over one file: the adopted
in-memory record, what was written back to the file (none when nothing was
written), and whether the original file was backed up first. -/
structure LoadOutcome (α : Type) where
  value : α
  fileWritten : Option α
  backedUp : Bool
deriving DecidableEq

/-- SettingsService.loadSettings: a missing file is created with the
defaults; an unparsable or invalid file is backed up (it exists) and
replaced by the defaults via createBackupAndReset; a valid file is merged
over the defaults and adopted without a write. -/
def loadSettings (file : FileContents) : LoadOutcome AppSettings :=
  match file with
  | FileContents.missing =>
    ⟨DEFAULT_SETTINGS, some DEFAULT_SETTINGS, false⟩
  | FileContents.unparsable =>
    ⟨DEFAULT_SETTINGS, some DEFAULT_SETTINGS, true⟩
  | FileContents.parsed r =>
    if validateSettingsData r then
      ⟨mergeWithDefaults r, none, false⟩
    else
      ⟨DEFAULT_SETTINGS, some DEFAULT_SETTINGS, true⟩

/-- StatsService.loadStats: a missing file is created with the current
(default) record; an unparsable or invalid file is replaced in memory by
DEFAULT_STATS and saved (no backup is made here); a valid record is
adopted, and when its version differs from APP_VERSION the migration
branch merely logs and stamps APP_VERSION onto it, without rejecting it
and without writing it back. -/
def loadStats (startupDate : String) (parsesAsDate : String → Bool)
    (file : FileContents) : LoadOutcome StatsData :=
  match file with
  | FileContents.missing =>
    ⟨DEFAULT_STATS startupDate, some (DEFAULT_STATS startupDate), false⟩
  | FileContents.unparsable =>
    ⟨DEFAULT_STATS startupDate, some (DEFAULT_STATS startupDate), false⟩
  | FileContents.parsed r =>
    if validateStatsData parsesAsDate r then
      let data := rawToStats r (DEFAULT_STATS startupDate)
      let adopted :=
        if data.version ≠ APP_VERSION then { data with version := APP_VERSION }
        else data
      ⟨adopted, none, false⟩
    else
      ⟨DEFAULT_STATS startupDate, some (DEFAULT_STATS startupDate), false⟩

/-- A parsed settings file holding exactly the five expected fields with
the expected JSON types. -/
def mkRawSettings (w sb lb : Int) (snd : Bool) (v : String) : RawRecord :=
  [("workDuration", JField.jnum w),
   ("shortBreakDuration", JField.jnum sb),
   ("longBreakDuration", JField.jnum lb),
   ("soundEnabled", JField.jbool snd),
   ("version", JField.jstr v)]

/-- A parsed statistics file holding exactly the seven expected fields
with the expected JSON types. -/
def mkRawStats (ws ss ls twt tbt : Int) (date v : String) : RawRecord :=
  [("workSessions", JField.jnum ws),
   ("shortBreakSessions", JField.jnum ss),
   ("longBreakSessions", JField.jnum ls),
   ("totalWorkTime", JField.jnum twt),
   ("totalBreakTime", JField.jnum tbt),
   ("lastResetDate", JField.jstr date),
   ("version", JField.jstr v)]

/-! ## Helper lemmas -/

/-- Writing back the previously read value of a key undoes a write to that
key: the rollback assignment in updateSetting restores the record. -/
theorem setKey_rollback (s : AppSettings) (key : SettingsKey) (value : SettingValue) :
    (s.setKey key value).setKey key (s.getKey key) = s := by
  cases key <;> cases value <;>
    simp [AppSettings.setKey, AppSettings.getKey]

/-- When the updateSettings loop records no change, the settings record is
untouched. -/
theorem applyUpdates_nil_changes (us : List (SettingsKey × Option SettingValue)) :
    ∀ cur : AppSettings, (applyUpdates cur us).2 = [] → (applyUpdates cur us).1 = cur := by
  induction us with
  | nil => intro cur _; rfl
  | cons head rest ih =>
    intro cur h
    obtain ⟨key, v?⟩ := head
    cases v? with
    | none => exact ih cur h
    | some value =>
      by_cases hval : validateSettingValue key value = true
      · by_cases hne : cur.getKey key ≠ value
        · exfalso
          simp [applyUpdates, hval, hne] at h
        · simp [applyUpdates, hval, hne] at h ⊢
          exact ih cur h
      · simp [applyUpdates, hval] at h ⊢
        exact ih cur h

/-- A run of interval firings splits at a list append. -/
theorem tickN_append (a b : List Nat) :
    ∀ s : TimerServiceState, tickN s (a ++ b) =
      ((tickN (tickN s a).1 b).1, (tickN s a).2 ++ (tickN (tickN s a).1 b).2) := by
  induction a with
  | nil => intro s; simp [tickN]
  | cons x xs ih => intro s; simp [tickN, ih, List.append_assoc]

/-- Running strictly fewer ticks than the remaining seconds keeps the
timer running with the remaining time decremented once per tick, and no
complete event is emitted. -/
theorem tickRun_lt (ts : List Nat) :
    ∀ (t : Timer) (k : Nat), t.state = TimerState.running →
    t.remainingTime = (k : Int) → ts.length < k →
    (tickN ⟨some t, true⟩ ts).1 =
      ⟨some { t with remainingTime := ((k - ts.length : Nat) : Int) }, true⟩ ∧
    countComplete (tickN ⟨some t, true⟩ ts).2 = 0 := by
  induction ts with
  | nil =>
    intro t k hS hRem hLen
    obtain ⟨ty, du, rem, st, sa, pa, ca⟩ := t
    simp only at hRem
    subst hRem
    simp [tickN, countComplete]
  | cons now rest ih =>
    intro t k hS hRem hLen
    simp only [List.length_cons] at hLen
    have hgt : ¬ (t.remainingTime - 1 ≤ 0) := by rw [hRem]; omega
    have htick : tick ⟨some t, true⟩ now =
        (⟨some { t with remainingTime := t.remainingTime - 1 }, true⟩,
          [TimerEvent.tick (t.remainingTime - 1)]) := by
      simp [tick, hS, hgt]
    have hrem1 : ({ t with remainingTime := t.remainingTime - 1 } : Timer).remainingTime
        = ((k - 1 : Nat) : Int) := by
      simp only [hRem]
      omega
    obtain ⟨ihState, ihCount⟩ :=
      ih { t with remainingTime := t.remainingTime - 1 } (k - 1) (by simp [hS])
        hrem1 (by omega)
    constructor
    · simp only [tickN, htick, ihState]
      have : k - 1 - rest.length = k - (rest.length + 1) := by omega
      simp [this]
    · simp only [tickN, htick]
      simp [countComplete, List.countP_append] at ihCount ⊢
      exact ihCount

/-- A tick fired with exactly one second remaining completes the timer:
it emits tick 0 and then one complete event whose actual duration is the
whole minutes elapsed since the start timestamp, and clears the timer and
the interval. -/
theorem tick_completes (t : Timer) (st now : Nat)
    (hS : t.state = TimerState.running) (hRem : t.remainingTime = 1)
    (hSt : t.startedAt = some st) :
    tick ⟨some t, true⟩ now =
      (⟨none, false⟩, [TimerEvent.tick 0,
        TimerEvent.complete t.type (((now - st) / 1000 / 60 : Nat) : Int)]) := by
  simp [tick, hS, hRem, onTimerComplete, hSt]

/-- Running at most as many ticks as the remaining seconds leaves the
remaining time (0 when the timer completed and was cleared) equal to the
starting seconds minus the number of ticks. -/
theorem tickRun_le (ts : List Nat) :
    ∀ (t : Timer) (k : Nat), t.state = TimerState.running →
    t.remainingTime = (k : Int) → ts.length ≤ k →
    getRemainingTime (tickN ⟨some t, true⟩ ts).1 = ((k - ts.length : Nat) : Int) := by
  induction ts with
  | nil =>
    intro t k hS hRem hLen
    simpa [tickN, getRemainingTime] using hRem
  | cons now rest ih =>
    intro t k hS hRem hLen
    simp only [List.length_cons] at hLen
    rcases le_or_lt k 1 with hk | hk
    · have hk1 : k = 1 := by omega
      have hrest : rest = [] := by
        have : rest.length = 0 := by omega
        exact List.length_eq_zero.mp this
      subst hk1
      subst hrest
      have hRem1 : t.remainingTime = 1 := by simpa using hRem
      simp [tickN, tick_completes t 0 now hS hRem1, getRemainingTime,
        tick, hS, hRem1, onTimerComplete]
    · have hgt : ¬ (t.remainingTime - 1 ≤ 0) := by rw [hRem]; omega
      have htick : tick ⟨some t, true⟩ now =
          (⟨some { t with remainingTime := t.remainingTime - 1 }, true⟩,
            [TimerEvent.tick (t.remainingTime - 1)]) := by
        simp [tick, hS, hgt]
      have hrem1 : ({ t with remainingTime := t.remainingTime - 1 } : Timer).remainingTime
          = ((k - 1 : Nat) : Int) := by
        simp only [hRem]
        omega
      have := ih { t with remainingTime := t.remainingTime - 1 } (k - 1)
        (by simp [hS]) hrem1 (by omega)
      simp only [tickN, htick] at this ⊢
      rw [this]
      have h2 : k - 1 - rest.length = k - (rest.length + 1) := by omega
      rw [h2]
      simp

/-! ## Claims -/

/-- C9: Every Timer Engine operation invoked from a state with no defined
transition (stop from Idle, pause from any state other than Running,
resume from any state other than Paused) is a no-op: state and remaining
time unchanged, no event emitted, no exception thrown (error is none, the
warning is only logged). -/
theorem invalid_state_transitions_are_noops (s : TimerServiceState) (now : Nat) :
    (getState s = TimerState.idle → stopTimer s = ⟨s, [], none⟩) ∧
    (getState s ≠ TimerState.running → pauseTimer s now = ⟨s, [], none⟩) ∧
    (getState s ≠ TimerState.paused → resumeTimer s = ⟨s, [], none⟩) := by
  refine ⟨?_, ?_, ?_⟩ <;> intro h <;>
    cases hT : s.timer with
    | none => simp [stopTimer, pauseTimer, resumeTimer, hT]
    | some t =>
      simp only [getState, hT] at h
      simp [stopTimer, pauseTimer, resumeTimer, hT, h]

/-- C9 witness: on the idle service state every one of the three
operations is a no-op. -/
theorem invalid_state_transitions_are_noops_witness :
    stopTimer ⟨none, false⟩ = ⟨⟨none, false⟩, [], none⟩ ∧
    pauseTimer ⟨none, false⟩ 0 = ⟨⟨none, false⟩, [], none⟩ ∧
    resumeTimer ⟨none, false⟩ = ⟨⟨none, false⟩, [], none⟩ := by
  have h := invalid_state_transitions_are_noops ⟨none, false⟩ 0
  exact ⟨h.1 (by decide), h.2.1 (by decide), h.2.2 (by decide)⟩

/-- C4: On an initialized Configuration Service with autosave enabled,
updateSetting with an invalid value throws and leaves both the in-memory
record and the persisted file untouched with no event; with a valid value
and a failing persist, the in-memory value is rolled back, the file is
unchanged, no settingsChanged event is emitted and the error propagates;
with a valid value and a successful persist, the new value is both in
memory and durably in the file. -/
theorem updateSetting_validation_and_rollback (s : SettingsServiceState)
    (key : SettingsKey) (value : SettingValue) (saveOk : Bool)
    (hInit : s.isInitialized = true) (hAuto : s.autoSaveEnabled = true) :
    (validateSettingValue key value = false →
      updateSetting s key value saveOk = ⟨s, [], some "Invalid value for setting"⟩) ∧
    (validateSettingValue key value = true → saveOk = false →
      updateSetting s key value saveOk =
        ⟨s, [], some "Failed to save settings"⟩) ∧
    (validateSettingValue key value = true → saveOk = true →
      updateSetting s key value saveOk =
        ⟨{ s with
            settings := s.settings.setKey key value
            file := some (s.settings.setKey key value) },
          [SettingsEvent.settingsChanged key value (s.settings.getKey key)], none⟩) := by
  obtain ⟨settings, file, init, auto⟩ := s
  simp only at hInit hAuto
  subst hInit
  subst hAuto
  refine ⟨?_, ?_, ?_⟩
  · intro hval
    simp [updateSetting, hval]
  · intro hval hsave
    subst hsave
    simp [updateSetting, hval, setKey_rollback]
  · intro hval hsave
    subst hsave
    simp [updateSetting, hval]

/-- C4 witness: on the default initialized state, an out-of-range
workDuration of 0 is rejected without any change, a failing save rolls a
valid update of 30 back, and a successful save persists it. -/
theorem updateSetting_validation_and_rollback_witness :
    (validateSettingValue SettingsKey.workDuration (SettingValue.vNum 0) = false →
      updateSetting ⟨DEFAULT_SETTINGS, some DEFAULT_SETTINGS, true, true⟩
          SettingsKey.workDuration (SettingValue.vNum 0) true =
        ⟨⟨DEFAULT_SETTINGS, some DEFAULT_SETTINGS, true, true⟩, [],
          some "Invalid value for setting"⟩) ∧
    (validateSettingValue SettingsKey.workDuration (SettingValue.vNum 0) = true →
      true = false →
      updateSetting ⟨DEFAULT_SETTINGS, some DEFAULT_SETTINGS, true, true⟩
          SettingsKey.workDuration (SettingValue.vNum 0) true =
        ⟨⟨DEFAULT_SETTINGS, some DEFAULT_SETTINGS, true, true⟩, [],
          some "Failed to save settings"⟩) ∧
    (validateSettingValue SettingsKey.workDuration (SettingValue.vNum 0) = true →
      true = true →
      updateSetting ⟨DEFAULT_SETTINGS, some DEFAULT_SETTINGS, true, true⟩
          SettingsKey.workDuration (SettingValue.vNum 0) true =
        ⟨⟨{ DEFAULT_SETTINGS with workDuration := 0 },
            some { DEFAULT_SETTINGS with workDuration := 0 }, true, true⟩,
          [SettingsEvent.settingsChanged SettingsKey.workDuration
            (SettingValue.vNum 0) (SettingValue.vNum 25)], none⟩) :=
  updateSetting_validation_and_rollback
    ⟨DEFAULT_SETTINGS, some DEFAULT_SETTINGS, true, true⟩
    SettingsKey.workDuration (SettingValue.vNum 0) true (by decide) (by decide)

/-- C5: On an initialized Statistics Service, resetStats first backs up
the existing statistics file, then writes a record with all five counters
and accumulators zero, the fresh reset timestamp and the current schema
version; when the write fails the prior in-memory record is restored
exactly (the backup already made remains) and the error propagates, and
when the backup itself fails nothing is changed and the error propagates. -/
theorem resetStats_backup_zero_rollback (s : StatsServiceState)
    (resetDate : String) (saveOk : Bool) (hInit : s.isInitialized = true) :
    (∀ current, s.file = some current →
      (saveOk = true →
        resetStats s resetDate saveOk =
          ⟨{ s with
              stats :=
                { workSessions := 0, shortBreakSessions := 0,
                  longBreakSessions := 0, totalWorkTime := 0,
                  totalBreakTime := 0, lastResetDate := resetDate,
                  version := APP_VERSION },
              file := some
                { workSessions := 0, shortBreakSessions := 0,
                  longBreakSessions := 0, totalWorkTime := 0,
                  totalBreakTime := 0, lastResetDate := resetDate,
                  version := APP_VERSION },
              backups := current :: s.backups },
            [StatsEvent.statsReset s.stats resetDate], none⟩) ∧
      (saveOk = false →
        resetStats s resetDate saveOk =
          ⟨{ s with backups := current :: s.backups }, [],
            some "Failed to save stats"⟩)) ∧
    (s.file = none →
      resetStats s resetDate saveOk = ⟨s, [], some "Failed to backup file"⟩) := by
  obtain ⟨stats, file, backups, init⟩ := s
  simp only at hInit
  subst hInit
  constructor
  · intro current hfile
    simp only at hfile
    subst hfile
    constructor
    · intro hsave
      subst hsave
      simp [resetStats]
    · intro hsave
      subst hsave
      simp [resetStats]
  · intro hfile
    simp only at hfile
    subst hfile
    simp [resetStats]

/-- C5 witness: resetting a concrete three-session record backs up the
file and zeroes everything on success, and restores the record exactly
when the save fails (shown here through the success branch at saveOk =
true; the failure branch of the same instantiation is vacuous). -/
theorem resetStats_backup_zero_rollback_witness :
    (∀ current,
      (some ⟨3, 2, 1, 75, 15, "2024-01-01T00:00:00.000Z", "1.0.0"⟩ :
          Option StatsData) = some current →
      (true = true →
        resetStats
            ⟨⟨3, 2, 1, 75, 15, "2024-01-01T00:00:00.000Z", "1.0.0"⟩,
              some ⟨3, 2, 1, 75, 15, "2024-01-01T00:00:00.000Z", "1.0.0"⟩,
              [], true⟩ "2025-06-01T00:00:00.000Z" true =
          ⟨{ (⟨⟨3, 2, 1, 75, 15, "2024-01-01T00:00:00.000Z", "1.0.0"⟩,
                some ⟨3, 2, 1, 75, 15, "2024-01-01T00:00:00.000Z", "1.0.0"⟩,
                [], true⟩ : StatsServiceState) with
              stats :=
                { workSessions := 0, shortBreakSessions := 0,
                  longBreakSessions := 0, totalWorkTime := 0,
                  totalBreakTime := 0,
                  lastResetDate := "2025-06-01T00:00:00.000Z",
                  version := APP_VERSION },
              file := some
                { workSessions := 0, shortBreakSessions := 0,
                  longBreakSessions := 0, totalWorkTime := 0,
                  totalBreakTime := 0,
                  lastResetDate := "2025-06-01T00:00:00.000Z",
                  version := APP_VERSION },
              backups := current :: [] },
            [StatsEvent.statsReset ⟨3, 2, 1, 75, 15, "2024-01-01T00:00:00.000Z", "1.0.0"⟩
              "2025-06-01T00:00:00.000Z"], none⟩) ∧
      (true = false →
        resetStats
            ⟨⟨3, 2, 1, 75, 15, "2024-01-01T00:00:00.000Z", "1.0.0"⟩,
              some ⟨3, 2, 1, 75, 15, "2024-01-01T00:00:00.000Z", "1.0.0"⟩,
              [], true⟩ "2025-06-01T00:00:00.000Z" true =
          ⟨{ (⟨⟨3, 2, 1, 75, 15, "2024-01-01T00:00:00.000Z", "1.0.0"⟩,
                some ⟨3, 2, 1, 75, 15, "2024-01-01T00:00:00.000Z", "1.0.0"⟩,
                [], true⟩ : StatsServiceState) with
              backups := current :: [] }, [],
            some "Failed to save stats"⟩)) ∧
    ((some ⟨3, 2, 1, 75, 15, "2024-01-01T00:00:00.000Z", "1.0.0"⟩ :
        Option StatsData) = none →
      resetStats
          ⟨⟨3, 2, 1, 75, 15, "2024-01-01T00:00:00.000Z", "1.0.0"⟩,
            some ⟨3, 2, 1, 75, 15, "2024-01-01T00:00:00.000Z", "1.0.0"⟩,
            [], true⟩ "2025-06-01T00:00:00.000Z" true =
        ⟨⟨⟨3, 2, 1, 75, 15, "2024-01-01T00:00:00.000Z", "1.0.0"⟩,
            some ⟨3, 2, 1, 75, 15, "2024-01-01T00:00:00.000Z", "1.0.0"⟩,
            [], true⟩, [], some "Failed to backup file"⟩) :=
  resetStats_backup_zero_rollback
    ⟨⟨3, 2, 1, 75, 15, "2024-01-01T00:00:00.000Z", "1.0.0"⟩,
      some ⟨3, 2, 1, 75, 15, "2024-01-01T00:00:00.000Z", "1.0.0"⟩, [], true⟩
    "2025-06-01T00:00:00.000Z" true (by decide)

/-- C10: When the statistics file does not exist, the backup step of
resetStats fails, so resetStats throws without writing any zeroed record,
and the in-memory record, the (absent) file and the backups are exactly
what they were before the call. -/
theorem resetStats_missing_file_rolls_back (s : StatsServiceState)
    (resetDate : String) (saveOk : Bool) (hInit : s.isInitialized = true)
    (hFile : s.file = none) :
    resetStats s resetDate saveOk = ⟨s, [], some "Failed to backup file"⟩ := by
  obtain ⟨stats, file, backups, init⟩ := s
  simp only at hInit hFile
  subst hInit
  subst hFile
  simp [resetStats]

/-- C2 counterexample: the claim says an invalid entry in the batch causes
updateSettings to reject with an error and change no field.  On the code,
a batch holding an out-of-range workDuration of 0 together with a valid
shortBreakDuration of 10 succeeds without any error, skips the invalid
entry and applies the valid one. -/
theorem updateSettings_invalid_entry_not_rejected :
    (updateSettings ⟨DEFAULT_SETTINGS, some DEFAULT_SETTINGS, true, true⟩
        [(SettingsKey.workDuration, some (SettingValue.vNum 0)),
         (SettingsKey.shortBreakDuration, some (SettingValue.vNum 10))]
        true).error = none ∧
    (updateSettings ⟨DEFAULT_SETTINGS, some DEFAULT_SETTINGS, true, true⟩
        [(SettingsKey.workDuration, some (SettingValue.vNum 0)),
         (SettingsKey.shortBreakDuration, some (SettingValue.vNum 10))]
        true).state.settings.workDuration = 25 ∧
    (updateSettings ⟨DEFAULT_SETTINGS, some DEFAULT_SETTINGS, true, true⟩
        [(SettingsKey.workDuration, some (SettingValue.vNum 0)),
         (SettingsKey.shortBreakDuration, some (SettingValue.vNum 10))]
        true).state.settings.shortBreakDuration = 10 := by
  decide

/-- C2 amended: updateSettings silently skips entries whose value is
undefined or fails validation instead of rejecting the batch (with a
successful persist it never errors), and when persisting the batch fails
every field changed by the batch is rolled back to its pre-call value
before the error propagates, with no settingsChanged event emitted. -/
theorem updateSettings_skips_invalid_and_rolls_back (s : SettingsServiceState)
    (updates : List (SettingsKey × Option SettingValue)) (saveOk : Bool)
    (hInit : s.isInitialized = true) (hAuto : s.autoSaveEnabled = true) :
    (saveOk = true → (updateSettings s updates saveOk).error = none) ∧
    (saveOk = false →
      (updateSettings s updates saveOk).state.settings = s.settings ∧
      (updateSettings s updates saveOk).events = []) := by
  obtain ⟨settings, file, init, auto⟩ := s
  simp only at hInit hAuto
  subst hInit
  subst hAuto
  constructor
  · intro hsave
    subst hsave
    simp only [updateSettings]
    by_cases h : (applyUpdates settings updates).2 ≠ []
    · simp [h]
    · simp [h]
  · intro hsave
    subst hsave
    simp only [updateSettings]
    by_cases h : (applyUpdates settings updates).2 ≠ []
    · simp [h]
    · simp only [ne_eq, not_not] at h
      simp [h, applyUpdates_nil_changes updates settings h]

/-- C2 amended witness: the same batch as the counterexample succeeds
without error under a working save, and under a failing save a batch with
one valid change is fully rolled back with no events. -/
theorem updateSettings_skips_invalid_and_rolls_back_witness :
    (false = true →
      (updateSettings ⟨DEFAULT_SETTINGS, some DEFAULT_SETTINGS, true, true⟩
          [(SettingsKey.workDuration, some (SettingValue.vNum 30)),
           (SettingsKey.soundEnabled, some (SettingValue.vBool false))]
          false).error = none) ∧
    (false = false →
      (updateSettings ⟨DEFAULT_SETTINGS, some DEFAULT_SETTINGS, true, true⟩
          [(SettingsKey.workDuration, some (SettingValue.vNum 30)),
           (SettingsKey.soundEnabled, some (SettingValue.vBool false))]
          false).state.settings = DEFAULT_SETTINGS ∧
      (updateSettings ⟨DEFAULT_SETTINGS, some DEFAULT_SETTINGS, true, true⟩
          [(SettingsKey.workDuration, some (SettingValue.vNum 30)),
           (SettingsKey.soundEnabled, some (SettingValue.vBool false))]
          false).events = []) :=
  updateSettings_skips_invalid_and_rolls_back
    ⟨DEFAULT_SETTINGS, some DEFAULT_SETTINGS, true, true⟩
    [(SettingsKey.workDuration, some (SettingValue.vNum 30)),
     (SettingsKey.soundEnabled, some (SettingValue.vBool false))]
    false (by decide) (by decide)

/-- C1 counterexample: writeJsonFile, the write used to persist every
record, writes the serialized value directly to the target path and
issues no rename, so it does not perform the claimed atomic replace. -/
theorem writeJsonFile_no_atomic_replace :
    FsOp.write "settings.json" "{}" ∈ writeJsonFileOps "settings.json" "{}" ∧
    ¬ AtomicReplace (writeJsonFileOps "settings.json" "{}") "settings.json" := by
  constructor
  · simp [writeJsonFileOps]
  · rintro ⟨-, hNoDirect⟩
    exact hNoDirect "{}" (by simp [writeJsonFileOps])

/-- C1 amended: writeJsonFile ensures the parent directory exists and
serializes, but then overwrites the target directly with one write and no
temporary path or rename, so the previously committed content can be
partially overwritten by a crash mid-write; the atomic
write-to-temporary-then-rename behaviour is implemented only by
writeFileSafe, which no record persistence path invokes. -/
theorem writeJsonFile_direct_writeFileSafe_atomic (p json : String) :
    writeJsonFileOps p json = [FsOp.ensureDir (dirname p), FsOp.write p json] ∧
    (∀ a b, FsOp.rename a b ∉ writeJsonFileOps p json) ∧
    AtomicReplace (writeFileSafeOps p json) p := by
  have hlen : (p ++ ".tmp") ≠ p := by
    intro h
    have h2 := congrArg String.length h
    rw [String.length_append] at h2
    have h4 : String.length ".tmp" = 4 := rfl
    omega
  refine ⟨rfl, ?_, ?_, ?_⟩
  · intro a b
    simp [writeJsonFileOps]
  · exact ⟨p ++ ".tmp", json, hlen, by simp [writeFileSafeOps], by simp [writeFileSafeOps]⟩
  · intro content hmem
    simp only [writeFileSafeOps, List.mem_cons, List.not_mem_nil, or_false] at hmem
    rcases hmem with h | h
    · injection h with h1 h2
      exact hlen h1.symm
    · exact FsOp.noConfusion h

/-- C1 amended witness: for the concrete settings path, writeJsonFile
issues exactly the ensure-directory and direct-write calls with no rename,
while writeFileSafe performs an atomic replace of the same path. -/
theorem writeJsonFile_direct_writeFileSafe_atomic_witness :
    writeJsonFileOps "userData/settings.json" "{}" =
      [FsOp.ensureDir (dirname "userData/settings.json"),
       FsOp.write "userData/settings.json" "{}"] ∧
    (∀ a b, FsOp.rename a b ∉ writeJsonFileOps "userData/settings.json" "{}") ∧
    AtomicReplace (writeFileSafeOps "userData/settings.json" "{}")
      "userData/settings.json" :=
  writeJsonFile_direct_writeFileSafe_atomic "userData/settings.json" "{}"

/-- C3 counterexample: the claim says start with a valid config while a
timer is Paused stops it and emits stop before start.  On the code, a
paused work timer overwritten by a valid shortBreak start produces only
the start event: the paused instance is discarded with no stop event. -/
theorem startTimer_from_paused_emits_no_stop :
    (startTimer
        ⟨some ⟨TimerType.work, 25, 1492, TimerState.paused, some 0, some 8000, none⟩,
          false⟩
        ⟨TimerType.shortBreak, 5⟩ 10000).events =
      [TimerEvent.start TimerType.shortBreak 5] ∧
    (startTimer
        ⟨some ⟨TimerType.work, 25, 1492, TimerState.paused, some 0, some 8000, none⟩,
          false⟩
        ⟨TimerType.shortBreak, 5⟩ 10000).error = none := by
  decide

/-- C3 amended: only when the existing timer is in the Running state does
start stop it first: the pending tick is cancelled, the old instance is
discarded and a stop event with the old remaining seconds is emitted
before the start event of the new timer; a Paused timer is silently
discarded without a stop event. -/
theorem startTimer_from_running_stops_first (s : TimerServiceState) (t : Timer)
    (config : TimerConfig) (now : Nat) (hT : s.timer = some t)
    (hR : t.state = TimerState.running)
    (hV : validateTimerConfig config = none) :
    startTimer s config now =
      ⟨⟨some
          { type := config.type
            duration := config.duration
            remainingTime := config.duration * 60
            state := TimerState.running
            startedAt := some now
            pausedAt := none
            completedAt := none }, true⟩,
        [TimerEvent.stop t.type t.remainingTime,
         TimerEvent.start config.type config.duration], none⟩ := by
  have hIdle : t.state ≠ TimerState.idle := by rw [hR]; intro h; exact TimerState.noConfusion h
  simp [startTimer, hV, hT, hR, stopTimer, hIdle]

/-- C3 amended witness: starting a shortBreak while a work timer is
running emits stop for the old timer and then start for the new one. -/
theorem startTimer_from_running_stops_first_witness :
    startTimer
        ⟨some ⟨TimerType.work, 25, 900, TimerState.running, some 0, none, none⟩, true⟩
        ⟨TimerType.shortBreak, 5⟩ 600000 =
      ⟨⟨some
          { type := TimerType.shortBreak
            duration := 5
            remainingTime := 5 * 60
            state := TimerState.running
            startedAt := some 600000
            pausedAt := none
            completedAt := none }, true⟩,
        [TimerEvent.stop TimerType.work 900,
         TimerEvent.start TimerType.shortBreak 5], none⟩ :=
  startTimer_from_running_stops_first
    ⟨some ⟨TimerType.work, 25, 900, TimerState.running, some 0, none, none⟩, true⟩
    ⟨TimerType.work, 25, 900, TimerState.running, some 0, none, none⟩
    ⟨TimerType.shortBreak, 5⟩ 600000 rfl rfl (by decide)

/-- C8: Schema versions are handled asymmetrically and never blindly
accepted: a settings record that is valid in every field but carries a
version outside SETTINGS_VERSION_SUPPORTED fails validateSettingsData, so
loading it backs the file up and replaces it with the defaults; a
statistics record whose version is merely not the current one, all other
fields valid, still passes validateStatsData and is adopted with only a
warning, with APP_VERSION stamped onto the adopted record. -/
theorem schema_version_asymmetry (w sb lb : Int) (snd : Bool) (v : String)
    (ws ss ls twt tbt : Int) (date vs : String)
    (startupDate : String) (parsesAsDate : String → Bool)
    (hv : SETTINGS_VERSION_SUPPORTED.contains v = false)
    (hws : 0 ≤ ws) (hss : 0 ≤ ss) (hls : 0 ≤ ls) (htw : 0 ≤ twt) (htb : 0 ≤ tbt)
    (hdate : parsesAsDate date = true) (hvs : vs ≠ APP_VERSION) :
    validateSettingsData (mkRawSettings w sb lb snd v) = false ∧
    loadSettings (FileContents.parsed (mkRawSettings w sb lb snd v)) =
      ⟨DEFAULT_SETTINGS, some DEFAULT_SETTINGS, true⟩ ∧
    validateStatsData parsesAsDate (mkRawStats ws ss ls twt tbt date vs) = true ∧
    loadStats startupDate parsesAsDate
        (FileContents.parsed (mkRawStats ws ss ls twt tbt date vs)) =
      ⟨⟨ws, ss, ls, twt, tbt, date, APP_VERSION⟩, none, false⟩ := by
  have hv2 : v ∉ SETTINGS_VERSION_SUPPORTED := by
    intro hmem
    simp [SETTINGS_VERSION_SUPPORTED] at hmem
    simp [SETTINGS_VERSION_SUPPORTED, hmem, List.contains] at hv
  have hset : validateSettingsData (mkRawSettings w sb lb snd v) = false := by
    simp [validateSettingsData, mkRawSettings, RawRecord.get, RawRecord.has, hv2]
  have hstat :
      validateStatsData parsesAsDate (mkRawStats ws ss ls twt tbt date vs) = true := by
    simp [validateStatsData, mkRawStats, RawRecord.get, RawRecord.has,
      hws, hss, hls, htw, htb, hdate]
  refine ⟨hset, ?_, hstat, ?_⟩
  · simp [loadSettings, hset]
  · simp [loadStats, mkRawStats, validateStatsData, RawRecord.get, RawRecord.has,
      rawToStats, rawNum, rawStr, hws, hss, hls, htw, htb, hdate, hvs]

/-- C8 witness: a settings file that is valid except for version 2.0.0 is
rejected, backed up and replaced by the defaults, while a statistics file
with version 2.0.0 and valid fields is adopted with the current version
stamped on. -/
theorem schema_version_asymmetry_witness :
    validateSettingsData (mkRawSettings 30 10 20 true "2.0.0") = false ∧
    loadSettings (FileContents.parsed (mkRawSettings 30 10 20 true "2.0.0")) =
      ⟨DEFAULT_SETTINGS, some DEFAULT_SETTINGS, true⟩ ∧
    validateStatsData (fun _ => true)
      (mkRawStats 3 2 1 75 15 "2024-01-01T00:00:00.000Z" "2.0.0") = true ∧
    loadStats "2024-06-01T00:00:00.000Z" (fun _ => true)
        (FileContents.parsed
          (mkRawStats 3 2 1 75 15 "2024-01-01T00:00:00.000Z" "2.0.0")) =
      ⟨⟨3, 2, 1, 75, 15, "2024-01-01T00:00:00.000Z", APP_VERSION⟩, none, false⟩ :=
  schema_version_asymmetry 30 10 20 true "2.0.0" 3 2 1 75 15
    "2024-01-01T00:00:00.000Z" "2.0.0" "2024-06-01T00:00:00.000Z" (fun _ => true)
    (by decide) (by decide) (by decide) (by decide) (by decide) (by decide)
    (by decide) (by decide)

/-- C6: For every valid config with duration D minutes, start establishes
remaining time D times 60 seconds and the Running state, and each tick
decrements the remaining time by exactly one second, so after N ticks with
no intervening pause or stop (0 ≤ N ≤ D times 60) the remaining time is D
times 60 minus N. -/
theorem start_running_and_exact_countdown (s : TimerServiceState)
    (config : TimerConfig) (now : Nat) (D : Nat) (ts : List Nat)
    (hD1 : 1 ≤ D) (hD2 : D ≤ 1440) (hDur : config.duration = (D : Int))
    (hLen : ts.length ≤ D * 60) :
    (startTimer s config now).error = none ∧
    getState (startTimer s config now).state = TimerState.running ∧
    getRemainingTime (startTimer s config now).state = ((D * 60 : Nat) : Int) ∧
    getRemainingTime (tickN (startTimer s config now).state ts).1 =
      ((D * 60 - ts.length : Nat) : Int) := by
  have hV : validateTimerConfig config = none := by
    simp only [validateTimerConfig, hDur, THRESHOLDS.MIN_DURATION_MINUTES,
      THRESHOLDS.MAX_DURATION_MINUTES]
    rw [if_neg (by omega), if_neg (by omega)]
  have hstate : (startTimer s config now).state =
      ⟨some
        { type := config.type
          duration := config.duration
          remainingTime := config.duration * 60
          state := TimerState.running
          startedAt := some now
          pausedAt := none
          completedAt := none }, true⟩ := by
    simp [startTimer, hV]
  have hrem : Timer.remainingTime
      { type := config.type
        duration := config.duration
        remainingTime := config.duration * 60
        state := TimerState.running
        startedAt := some now
        pausedAt := none
        completedAt := none } = ((D * 60 : Nat) : Int) := by
    simp only [hDur]
    push_cast
    ring
  refine ⟨?_, ?_, ?_, ?_⟩
  · simp [startTimer, hV]
  · rw [hstate]
    simp [getState]
  · rw [hstate]
    simpa [getRemainingTime] using hrem
  · rw [hstate]
    exact tickRun_le ts _ (D * 60) rfl hrem hLen

/-- C6 witness: starting a one-minute work timer on the idle state
succeeds, and after its full 60 ticks the remaining time is zero. -/
theorem start_running_and_exact_countdown_witness :
    (startTimer ⟨none, false⟩ ⟨TimerType.work, 1⟩ 0).error = none ∧
    getRemainingTime (tickN (startTimer ⟨none, false⟩ ⟨TimerType.work, 1⟩ 0).state
      (List.replicate 60 0)).1 =
      ((1 * 60 - (List.replicate 60 0).length : Nat) : Int) :=
  ⟨(start_running_and_exact_countdown ⟨none, false⟩ ⟨TimerType.work, 1⟩ 0 1
      (List.replicate 60 0) (by decide) (by decide) (by norm_num) (by simp)).1,
   (start_running_and_exact_countdown ⟨none, false⟩ ⟨TimerType.work, 1⟩ 0 1
      (List.replicate 60 0) (by decide) (by decide) (by norm_num) (by simp)).2.2.2⟩

/-- C7: When the remaining time reaches zero at the final tick, the engine
completes exactly once: across the whole run of ticks exactly one
complete event is emitted, carrying the elapsed whole minutes computed
from the start timestamp; it follows the final tick 0 event, the timer
instance is cleared so the state is Idle, and any further interval firing
changes nothing and emits nothing. -/
theorem completion_transitions_exactly_once (t : Timer) (k st : Nat)
    (ts : List Nat) (lastNow : Nat)
    (hS : t.state = TimerState.running) (hSt : t.startedAt = some st)
    (hRem : t.remainingTime = ((k + 1 : Nat) : Int)) (hLen : ts.length = k) :
    countComplete (tickN ⟨some t, true⟩ (ts ++ [lastNow])).2 = 1 ∧
    (∃ evs, (tickN ⟨some t, true⟩ (ts ++ [lastNow])).2 =
        evs ++ [TimerEvent.tick 0,
          TimerEvent.complete t.type (((lastNow - st) / 1000 / 60 : Nat) : Int)] ∧
      countComplete evs = 0) ∧
    (tickN ⟨some t, true⟩ (ts ++ [lastNow])).1 = ⟨none, false⟩ ∧
    getState (tickN ⟨some t, true⟩ (ts ++ [lastNow])).1 = TimerState.idle ∧
    (∀ m, tick (tickN ⟨some t, true⟩ (ts ++ [lastNow])).1 m =
      ((tickN ⟨some t, true⟩ (ts ++ [lastNow])).1, [])) := by
  have hlt : ts.length < k + 1 := by omega
  obtain ⟨hmid, hcount⟩ := tickRun_lt ts t (k + 1) hS hRem hlt
  have hmidrem : k + 1 - ts.length = 1 := by omega
  rw [hmidrem] at hmid
  have hlast : tick ⟨some { t with remainingTime := ((1 : Nat) : Int) }, true⟩ lastNow =
      (⟨none, false⟩, [TimerEvent.tick 0,
        TimerEvent.complete t.type (((lastNow - st) / 1000 / 60 : Nat) : Int)]) :=
    tick_completes { t with remainingTime := ((1 : Nat) : Int) } st lastNow hS
      Nat.cast_one hSt
  have hone : tickN (⟨some { t with remainingTime := ((1 : Nat) : Int) }, true⟩ :
      TimerServiceState) [lastNow] =
      ((⟨none, false⟩ : TimerServiceState), [TimerEvent.tick 0,
        TimerEvent.complete t.type (((lastNow - st) / 1000 / 60 : Nat) : Int)]) := by
    have hunfold : tickN (⟨some { t with remainingTime := ((1 : Nat) : Int) }, true⟩ :
        TimerServiceState) [lastNow] =
        ((tick ⟨some { t with remainingTime := ((1 : Nat) : Int) }, true⟩ lastNow).1,
         (tick ⟨some { t with remainingTime := ((1 : Nat) : Int) }, true⟩ lastNow).2 ++ []) :=
      rfl
    rw [hunfold, hlast]
    rfl
  have happ := tickN_append ts [lastNow] ⟨some t, true⟩
  rw [hmid, hone] at happ
  refine ⟨?_, ⟨(tickN ⟨some t, true⟩ ts).2, ?_, hcount⟩, ?_, ?_, ?_⟩
  · rw [happ]
    simp only [countComplete, List.countP_append] at hcount ⊢
    simp [hcount, List.countP_cons]
  · rw [happ]
  · rw [happ]
  · rw [happ]
    rfl
  · intro m
    rw [happ]
    rfl

/-- C7 witness: a running work timer with one second left, started at
time 0 and ticked at 1500000 milliseconds, emits tick 0 and exactly one
complete event of 25 elapsed minutes and ends cleared in the Idle state. -/
theorem completion_transitions_exactly_once_witness :
    countComplete (tickN
      ⟨some ⟨TimerType.work, 25, 1, TimerState.running, some 0, none, none⟩, true⟩
      ([] ++ [1500000])).2 = 1 ∧
    (tickN
      ⟨some ⟨TimerType.work, 25, 1, TimerState.running, some 0, none, none⟩, true⟩
      ([] ++ [1500000])).1 = ⟨none, false⟩ :=
  ⟨(completion_transitions_exactly_once
      ⟨TimerType.work, 25, 1, TimerState.running, some 0, none, none⟩ 0 0 [] 1500000
      rfl rfl (by norm_num) rfl).1,
   (completion_transitions_exactly_once
      ⟨TimerType.work, 25, 1, TimerState.running, some 0, none, none⟩ 0 0 [] 1500000
      rfl rfl (by norm_num) rfl).2.2.1⟩

/-- C10 witness: resetting with a missing statistics file fails and leaves
the concrete three-session record untouched. -/
theorem resetStats_missing_file_rolls_back_witness :
    resetStats ⟨⟨3, 2, 1, 75, 15, "2024-01-01T00:00:00.000Z", "1.0.0"⟩, none, [], true⟩
        "2025-06-01T00:00:00.000Z" true =
      ⟨⟨⟨3, 2, 1, 75, 15, "2024-01-01T00:00:00.000Z", "1.0.0"⟩, none, [], true⟩,
        [], some "Failed to backup file"⟩ :=
  resetStats_missing_file_rolls_back
    ⟨⟨3, 2, 1, 75, 15, "2024-01-01T00:00:00.000Z", "1.0.0"⟩, none, [], true⟩
    "2025-06-01T00:00:00.000Z" true (by decide) (by decide)

end Pomodoro
